import Mathlib

/-!
# rusefi-hardware: SENT-box constants, GM fuel sensor, digital-inputs CAN bench

Shallow embedding of

* `SENT-box/firmware/sent.h` (protocol constants, `SM_SENT_enum`),
* `SENT-box/firmware/sent_gm_fuel_sensor.h` (`SentGmFuelSensor`),
* `digital-inputs/firmware/can.cpp` (bench-test CAN receive path),

followed by the theorems about them.  C `int`/`int32_t` values are `Int`
with an explicit two's-complement wrap, `uint8_t` bytes are `Nat`.
-/

namespace SentBox

/-! ## sent.h : constants -/

/-- Source: `#define SENT_OFFSET_INTERVAL 12`. -/
def SENT_OFFSET_INTERVAL : Int := 12

/-- Source: `#define SENT_SYNC_INTERVAL (56 - SENT_OFFSET_INTERVAL)`. -/
def SENT_SYNC_INTERVAL : Int := 56 - SENT_OFFSET_INTERVAL

/-- Source: `#define SENT_MIN_INTERVAL 12`. -/
def SENT_MIN_INTERVAL : Int := 12

/-- Source: `#define SENT_MAX_INTERVAL 15`. -/
def SENT_MAX_INTERVAL : Int := 15

/-- Source: `#define SENT_CRC_SEED 0x05`. -/
def SENT_CRC_SEED : Nat := 0x05

/-- Source: `#define SENT_THROTTLE_OPEN_VAL 435`. -/
def SENT_THROTTLE_OPEN_VAL : Int := 435

/-- Source: `#define SENT_THROTTLE_CLOSE_VAL 3665`. -/
def SENT_THROTTLE_CLOSE_VAL : Int := 3665

/-- Source: the anonymous channel enum with `SENT_DEV == SENT_GM_ETB`, so that
`SENT_CH1 = 0`, `SENT_CH2 = 1`, `SENT_CH_MAX = 2`. -/
def SENT_CH_MAX : Nat := 2

/-! ## sent.h : `SM_SENT_enum` -/

/-- Source: `typedef enum { ... } SM_SENT_enum;`, enumerators in declaration order. -/
inductive SM_SENT_enum
  | SM_SENT_INIT_STATE
  | SM_SENT_SYNC_STATE
  | SM_SENT_STATUS_STATE
  | SM_SENT_SIG1_DATA1_STATE
  | SM_SENT_SIG1_DATA2_STATE
  | SM_SENT_SIG1_DATA3_STATE
  | SM_SENT_SIG2_DATA1_STATE
  | SM_SENT_SIG2_DATA2_STATE
  | SM_SENT_SIG2_DATA3_STATE
  | SM_SENT_CRC_STATE
  deriving DecidableEq, Repr

open SM_SENT_enum

/-- The enumerators of `SM_SENT_enum` in the order the source declares them. -/
def SM_SENT_enum.enumerators : List SM_SENT_enum :=
  [SM_SENT_INIT_STATE, SM_SENT_SYNC_STATE, SM_SENT_STATUS_STATE,
   SM_SENT_SIG1_DATA1_STATE, SM_SENT_SIG1_DATA2_STATE, SM_SENT_SIG1_DATA3_STATE,
   SM_SENT_SIG2_DATA1_STATE, SM_SENT_SIG2_DATA2_STATE, SM_SENT_SIG2_DATA3_STATE,
   SM_SENT_CRC_STATE]

/-- The integer value C gives each enumerator: the first is written `= 0`, every
later one is its predecessor plus one. -/
def SM_SENT_enum.toInt : SM_SENT_enum → Int
  | SM_SENT_INIT_STATE => 0
  | SM_SENT_SYNC_STATE => 0 + 1
  | SM_SENT_STATUS_STATE => 0 + 1 + 1
  | SM_SENT_SIG1_DATA1_STATE => 0 + 1 + 1 + 1
  | SM_SENT_SIG1_DATA2_STATE => 0 + 1 + 1 + 1 + 1
  | SM_SENT_SIG1_DATA3_STATE => 0 + 1 + 1 + 1 + 1 + 1
  | SM_SENT_SIG2_DATA1_STATE => 0 + 1 + 1 + 1 + 1 + 1 + 1
  | SM_SENT_SIG2_DATA2_STATE => 0 + 1 + 1 + 1 + 1 + 1 + 1 + 1
  | SM_SENT_SIG2_DATA3_STATE => 0 + 1 + 1 + 1 + 1 + 1 + 1 + 1 + 1
  | SM_SENT_CRC_STATE => 0 + 1 + 1 + 1 + 1 + 1 + 1 + 1 + 1 + 1

/-- The frame order as the specification writes it,
`INIT → SYNC → STATUS → SIG1_D1 → SIG1_D2 → SIG1_D3 → SIG2_D1 → SIG2_D2 → SIG2_D3
→ CRC → SYNC (next frame)`: the state that follows each state. -/
def specFrameSuccessor : SM_SENT_enum → SM_SENT_enum
  | SM_SENT_INIT_STATE => SM_SENT_SYNC_STATE
  | SM_SENT_SYNC_STATE => SM_SENT_STATUS_STATE
  | SM_SENT_STATUS_STATE => SM_SENT_SIG1_DATA1_STATE
  | SM_SENT_SIG1_DATA1_STATE => SM_SENT_SIG1_DATA2_STATE
  | SM_SENT_SIG1_DATA2_STATE => SM_SENT_SIG1_DATA3_STATE
  | SM_SENT_SIG1_DATA3_STATE => SM_SENT_SIG2_DATA1_STATE
  | SM_SENT_SIG2_DATA1_STATE => SM_SENT_SIG2_DATA2_STATE
  | SM_SENT_SIG2_DATA2_STATE => SM_SENT_SIG2_DATA3_STATE
  | SM_SENT_SIG2_DATA3_STATE => SM_SENT_CRC_STATE
  | SM_SENT_CRC_STATE => SM_SENT_SYNC_STATE

/-! ## sent_gm_fuel_sensor.h -/

/-- Two's-complement reduction of an integer to the `int32_t` range. -/
def wrapInt32 (x : Int) : Int := (x + 2147483648) % 4294967296 - 2147483648

/-- Source: `class SentGmFuelSensor`, its three `int32_t` data members. -/
structure SentGmFuelSensor where
  gm_sig0 : Int
  gm_sig1 : Int
  gm_stat : Int
  deriving Repr

/-- Source: `gm_GetSig0`. -/
def SentGmFuelSensor.gm_GetSig0 (s : SentGmFuelSensor) : Int := s.gm_sig0

/-- Source: `gm_GetSig1`. -/
def SentGmFuelSensor.gm_GetSig1 (s : SentGmFuelSensor) : Int := s.gm_sig1

/-- Source: `gm_GetStat`. -/
def SentGmFuelSensor.gm_GetStat (s : SentGmFuelSensor) : Int := s.gm_stat

/-- The sum `gm_GetSig0() - 198 + 10 + gm_GetSig1() - 202 + 10` of
`gm_GetPressure`, evaluated left to right, every `int32_t` operation wrapped. -/
def SentGmFuelSensor.pressureSum (s : SentGmFuelSensor) : Int :=
  wrapInt32 (wrapInt32 (wrapInt32 (wrapInt32 (wrapInt32
    (s.gm_GetSig0 - 198) + 10) + s.gm_GetSig1) - 202) + 10)

/-- Source: `gm_GetPressure`,
`return ((gm_GetSig0() - 198 + 10 + gm_GetSig1() - 202 + 10) * 100 / 2);`
with C's division truncating toward zero. -/
def SentGmFuelSensor.gm_GetPressure (s : SentGmFuelSensor) : Int :=
  wrapInt32 (Int.tdiv (wrapInt32 (s.pressureSum * 100)) 2)

/-! ## The decoder engine behind `SENT_ISR_Handler`

`sent.h` only declares `SENT_ISR_Handler`, `SENT_GetData` and the counter
getters; their bodies are not part of the translated sources.  The definitions
of this section follow the specification instead (sections 3, 4 and 6), and use
the constants of `sent.h` above.  What the specification leaves to the
implementation is a field of `DecoderParams`. -/

/-- Modelled from the spec: the body of the decoder, absent from the sources,
leaves these choices open.  `crcFold` is the CRC recurrence of section 4.4 ("fold
the nibble into the 4-bit CRC register ... implementation detail");
`syncPlausible` is the test of the INIT state ("interval corresponds to the
expected 44-tick sync window within tolerance"); `syncConsistent tick_time_ns
ticks` is false when in the SYNC state "the raw tick count is wildly inconsistent
with the previous calibration (beyond a tolerance band)"; `composeData` gives the
"composite/raw data value" that `SENT_GetData` publishes for the raw-data flag and
a committed status byte, signal 1 and signal 2. -/
structure DecoderParams where
  crcFold : Nat → Nat → Nat
  syncPlausible : Nat → Bool
  syncConsistent : Nat → Nat → Bool
  composeData : Bool → Nat → Nat → Nat → Nat

/-- Modelled from the spec: the Channel Context of section 3, whose declaration is
not in the sources: state, calibrated tick time, the nibbles collected for the
frame in progress and the running CRC.  The slow-channel accumulator is left out:
its encoding is open in the spec and no function below reads it. -/
structure ChannelContext where
  state : SM_SENT_enum
  tick_time_ns : Nat
  nibble_buffer : List Nat
  crc_accumulator : Nat
  deriving DecidableEq, Repr

/-- Modelled from the spec: what one edge does to the statistics and the Data
Store (section 4.7, "every classified edge increments exactly one of ..."); the
sources have no such type. -/
inductive EdgeOutcome
  | enteredSync
  | synced
  | syncError
  | shortInterval
  | longInterval
  | nibble
  | crcError
  | frame (status_byte signal1 signal2 : Nat)
  deriving DecidableEq, Repr

/-- Modelled from the spec: the Nibble Decoder of section 4.3, absent from the
sources: `v = round(interval_ticks / tick_time_ns) - 12`, rounding half up, the
12 being `SENT_OFFSET_INTERVAL`. -/
def nibbleOf (tick_time_ns interval_ticks : Nat) : Int :=
  (((2 * interval_ticks + tick_time_ns) / (2 * tick_time_ns) : Nat) : Int)
    - SENT_OFFSET_INTERVAL

/-- Modelled from the spec: the Frame Assembler of section 4.5, absent from the
sources: status byte and the two signals, "each packed MSB-first into a 12-bit
value (nibble1<<8 | nibble2<<4 | nibble3)", from the seven buffered nibbles. -/
def assembleFrame (buf : List Nat) : EdgeOutcome :=
  EdgeOutcome.frame (buf.getD 0 0)
    (((buf.getD 1 0) <<< 8) ||| ((buf.getD 2 0) <<< 4) ||| (buf.getD 3 0))
    (((buf.getD 4 0) <<< 8) ||| ((buf.getD 5 0) <<< 4) ||| (buf.getD 6 0))

/-- Modelled from the spec: the Channel State Machine of section 4.2, absent from
the sources, for one edge.  INIT waits for a plausible sync pulse; SYNC
recalibrates `tick_time_ns` as the interval over `SENT_SYNC_INTERVAL` and reseeds
buffer and CRC, unless the interval is inconsistent with the previous
calibration; every state that takes a nibble classifies the interval first
(below 0 short, above `SENT_MAX_INTERVAL` long, both back to SYNC); STATUS to
SIG2_D3 append the nibble, fold it into the CRC and advance; CRC compares the
nibble with the running CRC and goes back to SYNC either way. -/
def channelStep (p : DecoderParams) (c : ChannelContext) (interval_ticks : Nat) :
    ChannelContext × EdgeOutcome :=
  match c.state with
  | SM_SENT_enum.SM_SENT_INIT_STATE =>
    if p.syncPlausible interval_ticks then
      ({ c with state := SM_SENT_enum.SM_SENT_SYNC_STATE,
                tick_time_ns := interval_ticks / SENT_SYNC_INTERVAL.toNat },
        EdgeOutcome.enteredSync)
    else (c, EdgeOutcome.syncError)
  | SM_SENT_enum.SM_SENT_SYNC_STATE =>
    if p.syncConsistent c.tick_time_ns interval_ticks then
      ({ state := SM_SENT_enum.SM_SENT_STATUS_STATE,
         tick_time_ns := interval_ticks / SENT_SYNC_INTERVAL.toNat,
         nibble_buffer := [],
         crc_accumulator := SENT_CRC_SEED },
        EdgeOutcome.synced)
    else (c, EdgeOutcome.syncError)
  | s =>
    let v := nibbleOf c.tick_time_ns interval_ticks
    if v < 0 then
      ({ c with state := SM_SENT_enum.SM_SENT_SYNC_STATE, nibble_buffer := [] },
        EdgeOutcome.shortInterval)
    else if v > SENT_MAX_INTERVAL then
      ({ c with state := SM_SENT_enum.SM_SENT_SYNC_STATE, nibble_buffer := [] },
        EdgeOutcome.longInterval)
    else if s = SM_SENT_enum.SM_SENT_CRC_STATE then
      if v.toNat = c.crc_accumulator then
        ({ c with state := SM_SENT_enum.SM_SENT_SYNC_STATE, nibble_buffer := [] },
          assembleFrame c.nibble_buffer)
      else
        ({ c with state := SM_SENT_enum.SM_SENT_SYNC_STATE, nibble_buffer := [] },
          EdgeOutcome.crcError)
    else
      ({ c with state := specFrameSuccessor s,
                nibble_buffer := c.nibble_buffer ++ [v.toNat],
                crc_accumulator := p.crcFold c.crc_accumulator v.toNat % 16 },
        EdgeOutcome.nibble)

/-- Modelled from the spec: the error and sync counters of the Statistics Block
(section 3), read by the getters that take no channel. -/
structure Statistics where
  shortIntervalErr : Nat
  longIntervalErr : Nat
  crcErr : Nat
  syncErr : Nat
  syncCnt : Nat
  deriving DecidableEq, Repr

/-- Modelled from the spec: the last committed values of one channel in the Data
Store (section 3) and its frame count. -/
structure ChannelData where
  status_byte : Nat
  signal1 : Nat
  signal2 : Nat
  frameCnt : Nat
  deriving DecidableEq, Repr

/-- Modelled from the spec: the whole decoder state, "all fields start
zeroed/INIT-state": channel contexts and committed data by channel index,
statistics, and the raw-data flag of `SENT_SetRawDataProp`. -/
structure SentDecoder where
  channels : Nat → ChannelContext
  data : Nat → ChannelData
  stats : Statistics
  rawData : Bool

/-- Modelled from the spec: `SentDecoder_Init`, absent from the sources. -/
def SentDecoder_Init : SentDecoder :=
  { channels := fun _ =>
      { state := SM_SENT_enum.SM_SENT_INIT_STATE, tick_time_ns := 0,
        nibble_buffer := [], crc_accumulator := 0 },
    data := fun _ => { status_byte := 0, signal1 := 0, signal2 := 0, frameCnt := 0 },
    stats := { shortIntervalErr := 0, longIntervalErr := 0, crcErr := 0, syncErr := 0,
               syncCnt := 0 },
    rawData := false }

/-- Overwrite one index of a table. -/
def setAt {α : Type} (f : Nat → α) (i : Nat) (x : α) : Nat → α :=
  fun j => if j = i then x else f j

/-- Modelled from the spec: the accounting of one edge (sections 4.2 and 4.7): an
error increments its own counter, an accepted sync the sync count, a frame that
passed the CRC is committed to the channel's data and counted. -/
def applyOutcome (ch : Nat) (o : EdgeOutcome) (d : SentDecoder) : SentDecoder :=
  match o with
  | EdgeOutcome.enteredSync => d
  | EdgeOutcome.nibble => d
  | EdgeOutcome.synced => { d with stats := { d.stats with syncCnt := d.stats.syncCnt + 1 } }
  | EdgeOutcome.syncError => { d with stats := { d.stats with syncErr := d.stats.syncErr + 1 } }
  | EdgeOutcome.shortInterval =>
    { d with stats := { d.stats with shortIntervalErr := d.stats.shortIntervalErr + 1 } }
  | EdgeOutcome.longInterval =>
    { d with stats := { d.stats with longIntervalErr := d.stats.longIntervalErr + 1 } }
  | EdgeOutcome.crcError => { d with stats := { d.stats with crcErr := d.stats.crcErr + 1 } }
  | EdgeOutcome.frame status_byte signal1 signal2 =>
    { d with data := (setAt d.data ch
        { status_byte := status_byte, signal1 := signal1, signal2 := signal2,
          frameCnt := (d.data ch).frameCnt + 1 }) }

/-- Modelled from the spec: `SENT_ISR_Handler(ch, val_res)`, declared in `sent.h`
and defined outside the sources (section 4.1): an out-of-range channel is dropped
without any change, otherwise the edge goes to that channel's state machine. -/
def SENT_ISR_Handler (p : DecoderParams) (ch : Nat) (val_res : Nat) (d : SentDecoder) :
    SentDecoder :=
  if SENT_CH_MAX ≤ ch then d
  else
    applyOutcome ch (channelStep p (d.channels ch) val_res).2
      { d with channels := setAt d.channels ch (channelStep p (d.channels ch) val_res).1 }

/-- Modelled from the spec: `SENT_GetData(ch)`, declared in `sent.h` and defined
outside the sources: the "last committed composite/raw data value for the
channel", as `uint16_t`. -/
def SENT_GetData (p : DecoderParams) (d : SentDecoder) (ch : Nat) : Nat :=
  p.composeData d.rawData (d.data ch).status_byte (d.data ch).signal1 (d.data ch).signal2
    % 65536

/-- Modelled from the spec: `SENT_GetCrcErrCnt()`, defined outside the sources. -/
def SENT_GetCrcErrCnt (d : SentDecoder) : Nat := d.stats.crcErr

/-- Modelled from the spec: `SENT_GetFrameCnt(n)`, defined outside the sources:
the per-channel frame count. -/
def SENT_GetFrameCnt (d : SentDecoder) (n : Nat) : Nat := (d.data n).frameCnt

/-- The state of a frame in progress after `k` nibbles have been buffered: STATUS
for none, then the six data states, CRC once all seven are in. -/
def stateAfterNibbles : Nat → SM_SENT_enum
  | 0 => SM_SENT_enum.SM_SENT_STATUS_STATE
  | 1 => SM_SENT_enum.SM_SENT_SIG1_DATA1_STATE
  | 2 => SM_SENT_enum.SM_SENT_SIG1_DATA2_STATE
  | 3 => SM_SENT_enum.SM_SENT_SIG1_DATA3_STATE
  | 4 => SM_SENT_enum.SM_SENT_SIG2_DATA1_STATE
  | 5 => SM_SENT_enum.SM_SENT_SIG2_DATA2_STATE
  | 6 => SM_SENT_enum.SM_SENT_SIG2_DATA3_STATE
  | _ => SM_SENT_enum.SM_SENT_CRC_STATE

/-- Feed a sequence of edges of one channel through `SENT_ISR_Handler`. -/
def feedEdges (p : DecoderParams) (ch : Nat) (intervals : List Nat) (d : SentDecoder) :
    SentDecoder :=
  intervals.foldl (fun acc t => SENT_ISR_Handler p ch t acc) d

/-- The running CRC of section 4.4 over the nibbles of a frame, from
`SENT_CRC_SEED`, with the register kept to 4 bits. -/
def specFrameCrc (p : DecoderParams) (nibbles : List Nat) : Nat :=
  nibbles.foldl (fun crc n => p.crcFold crc n % 16) SENT_CRC_SEED

/-- The nibbles a frame's status and data intervals decode to, under the
calibration its sync pulse gives. -/
def frameNibbles (sync : Nat) (ticks : List Nat) : List Nat :=
  ticks.map (fun t => (nibbleOf (sync / 44) t).toNat)

/-- The value `SENT_GetData` publishes for a committed frame with these seven
nibbles: the decoded value of the frame. -/
def specDecodedValue (p : DecoderParams) (rawData : Bool) (nibbles : List Nat) : Nat :=
  p.composeData rawData (nibbles.getD 0 0)
    (((nibbles.getD 1 0) <<< 8) ||| ((nibbles.getD 2 0) <<< 4) ||| (nibbles.getD 3 0))
    (((nibbles.getD 4 0) <<< 8) ||| ((nibbles.getD 5 0) <<< 4) ||| (nibbles.getD 6 0))
    % 65536

/-- Parameters for evaluating the decoder: a table-driven CRC-4 fold, a sync
window of 44 ticks of 9 to 11 timer counts, a tolerance of a quarter around the
previous calibration, and signal 1 as the published value. -/
def exampleParams : DecoderParams :=
  { crcFold := fun crc n =>
      ([0, 13, 7, 10, 14, 3, 9, 4, 1, 12, 6, 11, 15, 2, 8, 5].getD crc 0) ^^^ n,
    syncPlausible := fun t => decide (396 ≤ t ∧ t ≤ 484),
    syncConsistent := fun tick t => decide (33 * tick ≤ t ∧ t ≤ 55 * tick),
    composeData := fun _ _ signal1 _ => signal1 }

/-- The status and data intervals of the example frame: nibbles 0, 1, 2, 3, 4, 5,
6 at 10 timer counts per tick. -/
def exampleTicks : List Nat := [120, 130, 140, 150, 160, 170, 180]

end SentBox

namespace DigitalInputs

/-! ## digital-inputs/firmware/can.cpp

The receive path works on the file's static flags, on the externs `currentBoard`,
`currentBoardRev`, `outputMode` and on the board table behind `getBoardConfigs()`.
The statics and the two externs it writes form `CanState`; what it only reads
(the board table, `outputMode.displayCanReceive`, the CAN identifiers and
`CAN_BENCH_HEADER`, all declared in headers outside the translated files) is the
parameter `BenchEnv`.  Text written to `chp` is kept as a list of `ChpLine`. -/

/-- One entry of `BoardConfig::channels` as `receiveRawAnalog` uses it:
`hasName` is `name != nullptr`; `outOfRange raw` is the outcome of the
floating-point test `voltage < acceptMin || voltage > acceptMax` for
`voltage = getVoltageFrom8Bit(raw) * mulCoef`, a function of the raw byte. -/
structure ChannelConfig where
  hasName : Bool
  outOfRange : Nat → Bool

/-- What the receive path reads of a `BoardConfig`: the `boardIds` array (its
entries in order; entries past the listed ones read as 0) and the channels. -/
structure BoardConfig where
  boardIds : List Int
  channels : Nat → ChannelConfig

/-- Which branch of `processCanRxMessage` printed a frame (the `msg` argument of
`printRxFrame`). -/
inductive FrameKind
  | boardStatus
  | rawAnalog
  | eventCounters
  | buttonCounters
  | ioMetaInfo
  deriving DecidableEq, Repr

/-- A line written to the stream `chp`, by format string. -/
inductive ChpLine
  /-- Format "CAN RX BoardStatus: BoardID=%d numSecs=%d". -/
  | rxBoardStatus (boardId numSeconds : Int)
  /-- Format " * Board detected: %s rev.%c". -/
  | boardDetected (boardIdx : Nat) (boardRev : Int)
  /-- Format "Error! Could not detect, unknown board!" (abridged), printed by `canPacketError`. -/
  | unknownBoard
  /-- Format " * BAD channel %d (%s): voltage ... not in range", printed by `canPacketError`. -/
  | badChannel (ch raw : Nat)
  /-- Format "CAN RX outputCount total=%d low=%d". -/
  | rxOutputCount (total low : Int)
  /-- Format "Processing %s ID=%x/l=%x ...", printed by `printRxFrame`. -/
  | processing (kind : FrameKind) (eid dlc : Nat) (data : List Nat)
  deriving DecidableEq, Repr

/-- The lines only `canPacketError` prints. -/
def ChpLine.isPacketError : ChpLine → Bool
  | ChpLine.unknownBoard => true
  | ChpLine.badChannel _ _ => true
  | _ => false

/-- Read-only surroundings of the receive path. -/
structure BenchEnv where
  /-- The table `getBoardConfigs()`, of length `getBoardsCount()`. -/
  boards : List BoardConfig
  /-- The flag `outputMode.displayCanReceive`. -/
  displayCanReceive : Bool
  BENCH_TEST_BOARD_STATUS : Nat
  BENCH_TEST_RAW_ANALOG : Nat
  BENCH_TEST_EVENT_COUNTERS : Nat
  BENCH_TEST_BUTTON_COUNTERS : Nat
  BENCH_TEST_IO_META_INFO : Nat
  CAN_BENCH_HEADER : Nat

/-- The mutable variables of the receive path.  `currentBoard` is a pointer into
the board table or null: `some boardIdx` or `none`. -/
structure CanState where
  isGoodCanPackets : Bool
  hasReceivedAnalog : Bool
  outputCount : Int
  lowSideOutputCount : Int
  wasBoardDetectError : Bool
  currentBoard : Option Nat
  currentBoardRev : Int
  chp : List ChpLine
  deriving DecidableEq, Repr

/-- The static initialisers of can.cpp, with no board detected yet. -/
def CanState.initial : CanState :=
  { isGoodCanPackets := true, hasReceivedAnalog := false, outputCount := -1,
    lowSideOutputCount := -1, wasBoardDetectError := false, currentBoard := none,
    currentBoardRev := 0, chp := [] }

/-- Source: `CANRxFrame`, the fields the receive path reads. -/
structure CANRxFrame where
  EID : Nat
  DLC : Nat
  data8 : List Nat
  deriving DecidableEq, Repr

/-- Source: the macro `CAN_EID(frame)`. -/
def CAN_EID (frame : CANRxFrame) : Nat := frame.EID

/-- The `uint8_t` read `msg[i]` of an 8-byte payload. -/
def byteAt (msg : List Nat) (i : Nat) : Nat := msg.getD i 0 % 256

/-- Source: `canPacketError`: print the message, clear `isGoodCanPackets`. -/
def canPacketError (line : ChpLine) (st : CanState) : CanState :=
  { st with chp := st.chp ++ [line], isGoodCanPackets := false }

/-- Source: `startNewCanTest`. -/
def startNewCanTest (st : CanState) : CanState :=
  { st with isGoodCanPackets := true, hasReceivedAnalog := false }

/-- Source: `getOutputCount`. -/
def getOutputCount (st : CanState) : Int := st.outputCount

/-- Source: `getLowSideOutputCount`. -/
def getLowSideOutputCount (st : CanState) : Int := st.lowSideOutputCount

/-- Source: `int boardId = (msg[0] << 8) | msg[1];`. -/
def decodeBoardId (msg : List Nat) : Int :=
  (((byteAt msg 0 <<< 8) ||| byteAt msg 1 : Nat) : Int)

/-- Source: `int numSecondsSinceReset = (msg[2] << 16) | (msg[3] << 8) | msg[4];`. -/
def decodeNumSeconds (msg : List Nat) : Int :=
  ((((byteAt msg 2 <<< 16) ||| (byteAt msg 3 <<< 8)) ||| byteAt msg 4 : Nat) : Int)

/-- The inner loop of `receiveBoardStatus`,
`for (int boardRev = 0; c.boardIds[boardRev] > 0; boardRev++)`, over the entries
from index `boardRev` on: it stops at the first entry that is not positive and
does not stop at a match. -/
def scanBoardIds (boardId : Int) (boardIdx : Nat) : List Int → Nat → CanState → CanState
  | [], _, st => st
  | id :: rest, boardRev, st =>
    if id > 0 then
      scanBoardIds boardId boardIdx rest (boardRev + 1)
        (if boardId = id then
          { st with currentBoard := some boardIdx, currentBoardRev := (boardRev : Int),
                    chp := st.chp ++ [ChpLine.boardDetected boardIdx boardRev] }
         else st)
    else st

/-- The outer loop of `receiveBoardStatus`,
`for (int boardIdx = 0; boardIdx < getBoardsCount(); boardIdx++)`, over the
configurations from index `boardIdx` on. -/
def scanBoards (boardId : Int) : List BoardConfig → Nat → CanState → CanState
  | [], _, st => st
  | c :: rest, boardIdx, st =>
    scanBoards boardId rest (boardIdx + 1) (scanBoardIds boardId boardIdx c.boardIds 0 st)

/-- Source: `receiveBoardStatus`. -/
def receiveBoardStatus (env : BenchEnv) (msg : List Nat) (st : CanState) : CanState :=
  let boardId := decodeBoardId msg
  let numSecondsSinceReset := decodeNumSeconds msg
  let st1 := if env.displayCanReceive then
      { st with chp := st.chp ++ [ChpLine.rxBoardStatus boardId numSecondsSinceReset] }
    else st
  let st2 := if st1.currentBoard = none then scanBoards boardId env.boards 0 st1 else st1
  if st2.currentBoard = none ∧ st2.wasBoardDetectError = false then
    { canPacketError ChpLine.unknownBoard st2 with wasBoardDetectError := true }
  else st2

/-- Source: `receiveOutputMetaInfo`. -/
def receiveOutputMetaInfo (env : BenchEnv) (msg : List Nat) (st : CanState) : CanState :=
  if byteAt msg 0 = env.CAN_BENCH_HEADER then
    let st1 := { st with outputCount := (byteAt msg 2 : Int),
                         lowSideOutputCount := (byteAt msg 3 : Int) }
    if env.displayCanReceive then
      { st1 with chp := st1.chp ++ [ChpLine.rxOutputCount st1.outputCount st1.lowSideOutputCount] }
    else st1
  else st

/-- The body of the channel loop of `receiveRawAnalog` for one `ch`. -/
def checkChannel (board : BoardConfig) (msg : List Nat) (st : CanState) (ch : Nat) :
    CanState :=
  if (board.channels ch).hasName = false then st
  else if (board.channels ch).outOfRange (byteAt msg ch) then
    canPacketError (ChpLine.badChannel ch (byteAt msg ch)) st
  else st

/-- Source: `receiveRawAnalog`.  A `currentBoard` that points outside the table
cannot arise from `receiveBoardStatus`; it is given no named channels. -/
def receiveRawAnalog (env : BenchEnv) (msg : List Nat) (st : CanState) : CanState :=
  match st.currentBoard with
  | none => st
  | some boardIdx =>
    let st1 := { st with hasReceivedAnalog := true }
    match env.boards.get? boardIdx with
    | none => st1
    | some board => (List.range 8).foldl (checkChannel board msg) st1

/-- Source: `printRxFrame`. -/
def printRxFrame (env : BenchEnv) (frame : CANRxFrame) (kind : FrameKind) (st : CanState) :
    CanState :=
  if env.displayCanReceive = false then st
  else { st with chp := st.chp ++
          [ChpLine.processing kind (CAN_EID frame) frame.DLC
            ((List.range 8).map (byteAt frame.data8))] }

/-- Source: `processCanRxMessage`. -/
def processCanRxMessage (env : BenchEnv) (st : CanState) (frame : CANRxFrame) : CanState :=
  if CAN_EID frame = env.BENCH_TEST_BOARD_STATUS then
    receiveBoardStatus env frame.data8 (printRxFrame env frame FrameKind.boardStatus st)
  else if CAN_EID frame = env.BENCH_TEST_RAW_ANALOG then
    receiveRawAnalog env frame.data8 (printRxFrame env frame FrameKind.rawAnalog st)
  else if CAN_EID frame = env.BENCH_TEST_EVENT_COUNTERS then
    printRxFrame env frame FrameKind.eventCounters st
  else if CAN_EID frame = env.BENCH_TEST_BUTTON_COUNTERS then
    printRxFrame env frame FrameKind.buttonCounters st
  else if CAN_EID frame = env.BENCH_TEST_IO_META_INFO then
    receiveOutputMetaInfo env frame.data8 (printRxFrame env frame FrameKind.ioMetaInfo st)
  else st

/-- A call into the module from outside: the receive thread handing over a frame,
or the test logic starting a new test. -/
inductive CanCall
  | rx (frame : CANRxFrame)
  | newTest

/-- The effect of one call. -/
def CanCall.run (env : BenchEnv) (st : CanState) : CanCall → CanState
  | CanCall.rx frame => processCanRxMessage env st frame
  | CanCall.newTest => startNewCanTest st

/-- The positive ids of a configuration before its first non-positive entry, as
the claim words it. -/
def specListedIds (c : BoardConfig) : List Int := c.boardIds.takeWhile (fun id => 0 < id)

/-- All (configuration index, revision index) pairs whose listed id is `boardId`,
in table order: configurations in order, and within one its revisions in order. -/
def specMatches (boards : List BoardConfig) (boardId : Int) : List (Nat × Nat) :=
  boards.enum.flatMap (fun ic =>
    ((specListedIds ic.2).enum.filter (fun rid => boardId = rid.2)).map
      (fun rid => (ic.1, rid.1)))

/-- A channel without a name: skipped by `receiveRawAnalog`. -/
def unusedChannel : ChannelConfig := { hasName := false, outOfRange := fun _ => false }

/-- A small bench for evaluating the receive path: two configurations, the second
listing the ids 7 and 3 and, after its terminating 0, a stray 5; channel 0 of each
accepts raw values from 50 to 200; display of received frames is off. -/
def exampleEnv : BenchEnv :=
  { boards :=
      [ { boardIds := [3, 0],
          channels := fun ch => if ch = 0 then
            { hasName := true, outOfRange := fun raw => decide (raw < 50 ∨ 200 < raw) }
            else unusedChannel },
        { boardIds := [7, 3, 0, 5],
          channels := fun ch => if ch = 0 then
            { hasName := true, outOfRange := fun raw => decide (raw < 50 ∨ 200 < raw) }
            else unusedChannel } ],
    displayCanReceive := false,
    BENCH_TEST_BOARD_STATUS := 1,
    BENCH_TEST_RAW_ANALOG := 2,
    BENCH_TEST_EVENT_COUNTERS := 3,
    BENCH_TEST_BUTTON_COUNTERS := 4,
    BENCH_TEST_IO_META_INFO := 5,
    CAN_BENCH_HEADER := 102 }

end DigitalInputs

namespace SentBox

open SM_SENT_enum

/-! ## Theorems: SENT-box -/

theorem wrapInt32_of_inRange (x : Int) (hlo : -2147483648 ≤ x) (hhi : x < 2147483648) :
    wrapInt32 x = x := by
  unfold wrapInt32
  omega

theorem pressureSum_of_inRange (s : SentGmFuelSensor)
    (h0 : 0 ≤ s.gm_sig0) (h0u : s.gm_sig0 ≤ 4095)
    (h1 : 0 ≤ s.gm_sig1) (h1u : s.gm_sig1 ≤ 4095) :
    s.pressureSum = s.gm_sig0 + s.gm_sig1 - 380 := by
  unfold SentGmFuelSensor.pressureSum SentGmFuelSensor.gm_GetSig0
    SentGmFuelSensor.gm_GetSig1
  rw [wrapInt32_of_inRange (s.gm_sig0 - 198) (by omega) (by omega)]
  rw [wrapInt32_of_inRange (s.gm_sig0 - 198 + 10) (by omega) (by omega)]
  rw [wrapInt32_of_inRange (s.gm_sig0 - 198 + 10 + s.gm_sig1) (by omega) (by omega)]
  rw [wrapInt32_of_inRange (s.gm_sig0 - 198 + 10 + s.gm_sig1 - 202) (by omega) (by omega)]
  rw [wrapInt32_of_inRange (s.gm_sig0 - 198 + 10 + s.gm_sig1 - 202 + 10) (by omega) (by omega)]
  omega

/-- C1: for 12-bit signals `gm_sig0`, `gm_sig1` in `0..4095`, `gm_GetPressure`
returns exactly `50 * (gm_sig0 + gm_sig1) - 19000`; the unwrapped product
`(gm_sig0 + gm_sig1 - 380) * 100` lies in the `int32_t` range (no overflow) and is
exactly twice the result (the truncating division by 2 loses nothing). -/
theorem gm_GetPressure_affine (s : SentGmFuelSensor)
    (h0 : 0 ≤ s.gm_sig0) (h0u : s.gm_sig0 ≤ 4095)
    (h1 : 0 ≤ s.gm_sig1) (h1u : s.gm_sig1 ≤ 4095) :
    s.gm_GetPressure = 50 * (s.gm_sig0 + s.gm_sig1) - 19000 ∧
    (-2147483648 ≤ (s.gm_sig0 + s.gm_sig1 - 380) * 100 ∧
      (s.gm_sig0 + s.gm_sig1 - 380) * 100 < 2147483648) ∧
    2 * s.gm_GetPressure = (s.gm_sig0 + s.gm_sig1 - 380) * 100 := by
  have hsum := pressureSum_of_inRange s h0 h0u h1 h1u
  have hval : s.gm_GetPressure = 50 * (s.gm_sig0 + s.gm_sig1) - 19000 := by
    unfold SentGmFuelSensor.gm_GetPressure
    rw [hsum, wrapInt32_of_inRange ((s.gm_sig0 + s.gm_sig1 - 380) * 100) (by omega) (by omega)]
    have hk : (s.gm_sig0 + s.gm_sig1 - 380) * 100
        = 2 * (50 * (s.gm_sig0 + s.gm_sig1) - 19000) := by ring
    rw [hk, Int.mul_tdiv_cancel_left _ (by decide : (2 : Int) ≠ 0)]
    exact wrapInt32_of_inRange _ (by omega) (by omega)
  refine ⟨hval, ⟨by omega, by omega⟩, ?_⟩
  rw [hval]
  ring

/-- C1, witness: `gm_sig0 = 198`, `gm_sig1 = 202` (open air) gives 1000, 1 Atm in
units of 0.001 Atm. -/
theorem gm_GetPressure_affine_witness :
    (SentGmFuelSensor.mk 198 202 0).gm_GetPressure = 1000 ∧
    (SentGmFuelSensor.mk 198 202 0).gm_GetPressure = 50 * (198 + 202) - 19000 :=
  ⟨by decide,
   (gm_GetPressure_affine (SentGmFuelSensor.mk 198 202 0)
      (by decide) (by decide) (by decide) (by decide)).1⟩

/-- C2: `SM_SENT_enum` lists the ten states in frame order with the consecutive
values 0..9; from STATUS to SIG2_D3 the state that follows in the frame has the
value `s + 1`; the number of nibble states already traversed in state `s`,
`s - SM_SENT_STATUS_STATE`, is at most 7 and is exactly 7 at `SM_SENT_CRC_STATE`. -/
theorem SM_SENT_enum_frame_order :
    SM_SENT_enum.enumerators.map SM_SENT_enum.toInt = [0, 1, 2, 3, 4, 5, 6, 7, 8, 9] ∧
    (∀ s : SM_SENT_enum, s ∈ SM_SENT_enum.enumerators) ∧
    (∀ s : SM_SENT_enum, s ≠ SM_SENT_CRC_STATE →
      SM_SENT_enum.enumerators.get? (s.toInt.toNat + 1) = some (specFrameSuccessor s)) ∧
    (∀ s : SM_SENT_enum, SM_SENT_STATUS_STATE.toInt ≤ s.toInt →
      s.toInt ≤ SM_SENT_SIG2_DATA3_STATE.toInt →
      (specFrameSuccessor s).toInt = s.toInt + 1) ∧
    (∀ s : SM_SENT_enum, s.toInt - SM_SENT_STATUS_STATE.toInt ≤ 7) ∧
    SM_SENT_CRC_STATE.toInt - SM_SENT_STATUS_STATE.toInt = 7 ∧
    (∀ s : SM_SENT_enum, s.toInt - SM_SENT_STATUS_STATE.toInt = 7 → s = SM_SENT_CRC_STATE) := by
  refine ⟨by decide, ?_, ?_, ?_, ?_, by decide, ?_⟩
  · intro s; cases s <;> decide
  · intro s; cases s <;> decide
  · intro s; cases s <;> decide
  · intro s; cases s <;> decide
  · intro s; cases s <;> decide

/-- C3: the valid nibble window `[SENT_MIN_INTERVAL, SENT_MIN_INTERVAL +
SENT_MAX_INTERVAL]` is `[12, 27]`; for every integer tick count `t`,
`t - SENT_OFFSET_INTERVAL` is in `0..15` exactly when `t` is in the window; 12
maps to 0 and 27 to 15, and the map is a bijection from the window onto `0..15`. -/
theorem nibble_window_exact :
    SENT_MIN_INTERVAL = 12 ∧ SENT_MIN_INTERVAL + SENT_MAX_INTERVAL = 27 ∧
    (∀ t : Int, (0 ≤ t - SENT_OFFSET_INTERVAL ∧ t - SENT_OFFSET_INTERVAL ≤ 15) ↔
      (SENT_MIN_INTERVAL ≤ t ∧ t ≤ SENT_MIN_INTERVAL + SENT_MAX_INTERVAL)) ∧
    (12 : Int) - SENT_OFFSET_INTERVAL = 0 ∧ (27 : Int) - SENT_OFFSET_INTERVAL = 15 ∧
    Set.BijOn (fun t : Int => t - SENT_OFFSET_INTERVAL)
      (Set.Icc SENT_MIN_INTERVAL (SENT_MIN_INTERVAL + SENT_MAX_INTERVAL))
      (Set.Icc 0 15) := by
  refine ⟨rfl, by decide, ?_, by decide, by decide, ?_, ?_, ?_⟩
  · intro t
    simp only [SENT_OFFSET_INTERVAL, SENT_MIN_INTERVAL, SENT_MAX_INTERVAL]
    omega
  · intro t ht
    simp only [Set.mem_Icc, SENT_OFFSET_INTERVAL, SENT_MIN_INTERVAL, SENT_MAX_INTERVAL] at ht ⊢
    omega
  · intro a _ b _ hab
    simp only [SENT_OFFSET_INTERVAL] at hab
    omega
  · intro v hv
    refine ⟨v + 12, ?_, ?_⟩
    · simp only [Set.mem_Icc, SENT_MIN_INTERVAL, SENT_MAX_INTERVAL] at hv ⊢
      omega
    · simp only [SENT_OFFSET_INTERVAL]
      omega

/-- C4: `SENT_SYNC_INTERVAL` is 44 ticks, namely 56 minus the 12-tick
`SENT_OFFSET_INTERVAL`; it is strictly above the largest valid nibble interval
`SENT_MIN_INTERVAL + SENT_MAX_INTERVAL = 27`, hence outside the nibble window and
its offset-corrected value is not a nibble in `0..15`. -/
theorem sync_interval_above_nibble_window :
    SENT_SYNC_INTERVAL = 44 ∧ SENT_SYNC_INTERVAL = 56 - SENT_OFFSET_INTERVAL ∧
    SENT_OFFSET_INTERVAL = 12 ∧
    SENT_MIN_INTERVAL + SENT_MAX_INTERVAL = 27 ∧
    SENT_MIN_INTERVAL + SENT_MAX_INTERVAL < SENT_SYNC_INTERVAL ∧
    ¬ (SENT_MIN_INTERVAL ≤ SENT_SYNC_INTERVAL ∧
        SENT_SYNC_INTERVAL ≤ SENT_MIN_INTERVAL + SENT_MAX_INTERVAL) ∧
    ¬ (0 ≤ SENT_SYNC_INTERVAL - SENT_OFFSET_INTERVAL ∧
        SENT_SYNC_INTERVAL - SENT_OFFSET_INTERVAL ≤ 15) := by
  refine ⟨by decide, rfl, rfl, by decide, by decide, by decide, by decide⟩

/-- C5: the throttle calibration constants are 435 (fully open) and 3665 (fully
closed); both are non-negative, below 4096 (12-bit signal) and below 65536 (the
`uint16_t` return type of the getters), and open is strictly less than closed. -/
theorem throttle_calibration_constants :
    SENT_THROTTLE_OPEN_VAL = 435 ∧ SENT_THROTTLE_CLOSE_VAL = 3665 ∧
    (0 ≤ SENT_THROTTLE_OPEN_VAL ∧ SENT_THROTTLE_OPEN_VAL < 4096) ∧
    (0 ≤ SENT_THROTTLE_CLOSE_VAL ∧ SENT_THROTTLE_CLOSE_VAL < 4096) ∧
    SENT_THROTTLE_OPEN_VAL % 65536 = SENT_THROTTLE_OPEN_VAL ∧
    SENT_THROTTLE_CLOSE_VAL % 65536 = SENT_THROTTLE_CLOSE_VAL ∧
    SENT_THROTTLE_OPEN_VAL < SENT_THROTTLE_CLOSE_VAL := by
  refine ⟨rfl, rfl, by decide, by decide, by decide, by decide, by decide⟩

/-- C7, as stated, fails: at the documented 1000 kPa readings `gm_sig0 = 282`,
`gm_sig1 = 283` the function returns 9250, not 9860. -/
theorem gm_GetPressure_1000kPa_not_9860 :
    (SentGmFuelSensor.mk 282 283 0).gm_GetPressure = 9250 ∧
    (SentGmFuelSensor.mk 282 283 0).gm_GetPressure ≠ 9860 := by
  decide

/-- C7, amended: `gm_GetPressure` works in 0.001 Atm with the assumed slope of 10
units per Atm: at the documented 1 Atm readings (198, 202) it returns 1000, and at
the documented 1000 kPa readings (282, 283) it returns 9250 (9.25 Atm), whatever
the status value. -/
theorem gm_GetPressure_documented_readings (stat : Int) :
    (SentGmFuelSensor.mk 198 202 stat).gm_GetPressure = 1000 ∧
    (SentGmFuelSensor.mk 282 283 stat).gm_GetPressure = 9250 := by
  constructor <;> rfl

/-! ### The decoder engine -/

section decoder

theorem setAt_same {α : Type} (f : Nat → α) (i : Nat) (x : α) : setAt f i x i = x := by
  simp [setAt]

theorem setAt_setAt {α : Type} (f : Nat → α) (i : Nat) (x y : α) :
    setAt (setAt f i x) i y = setAt f i y := by
  funext j
  simp only [setAt]
  split <;> rfl

theorem specFrameCrc_lt (p : DecoderParams) (nibbles : List Nat) :
    specFrameCrc p nibbles < 16 := by
  unfold specFrameCrc
  induction nibbles using List.reverseRecOn with
  | nil => show SENT_CRC_SEED < 16; decide
  | append_singleton l n _ =>
    rw [List.foldl_append, List.foldl_cons, List.foldl_nil]
    exact Nat.mod_lt _ (by decide)

theorem SENT_ISR_Handler_of_lt (p : DecoderParams) (ch val_res : Nat) (d : SentDecoder)
    (hch : ch < SENT_CH_MAX) :
    SENT_ISR_Handler p ch val_res d =
      applyOutcome ch (channelStep p (d.channels ch) val_res).2
        { d with channels := setAt d.channels ch (channelStep p (d.channels ch) val_res).1 } := by
  unfold SENT_ISR_Handler
  rw [if_neg (Nat.not_le.mpr hch)]

theorem channelStep_sync (p : DecoderParams) (c : ChannelContext) (t : Nat)
    (hs : c.state = SM_SENT_SYNC_STATE) (hc : p.syncConsistent c.tick_time_ns t = true) :
    channelStep p c t =
      ({ state := SM_SENT_STATUS_STATE, tick_time_ns := t / 44, nibble_buffer := [],
         crc_accumulator := SENT_CRC_SEED }, EdgeOutcome.synced) := by
  unfold channelStep
  rw [hs]
  simp only [hc, if_true]
  rfl

theorem channelStep_nibble (p : DecoderParams) (c : ChannelContext) (t k : Nat)
    (hs : c.state = stateAfterNibbles k) (hk : k < 7)
    (h0 : 0 ≤ nibbleOf c.tick_time_ns t) (h1 : nibbleOf c.tick_time_ns t ≤ 15) :
    channelStep p c t =
      ({ c with state := stateAfterNibbles (k + 1),
                nibble_buffer := c.nibble_buffer ++ [(nibbleOf c.tick_time_ns t).toNat],
                crc_accumulator :=
                  p.crcFold c.crc_accumulator (nibbleOf c.tick_time_ns t).toNat % 16 },
        EdgeOutcome.nibble) := by
  have hn0 : ¬ nibbleOf c.tick_time_ns t < 0 := Int.not_lt.mpr h0
  have hn1 : ¬ nibbleOf c.tick_time_ns t > SENT_MAX_INTERVAL := by
    unfold SENT_MAX_INTERVAL; omega
  unfold channelStep
  interval_cases k <;> rw [hs] <;> simp [stateAfterNibbles, hn0, hn1, specFrameSuccessor]

theorem channelStep_crc (p : DecoderParams) (c : ChannelContext) (t : Nat)
    (hs : c.state = SM_SENT_CRC_STATE)
    (h0 : 0 ≤ nibbleOf c.tick_time_ns t) (h1 : nibbleOf c.tick_time_ns t ≤ 15) :
    channelStep p c t =
      ({ c with state := SM_SENT_SYNC_STATE, nibble_buffer := [] },
        if (nibbleOf c.tick_time_ns t).toNat = c.crc_accumulator then
          assembleFrame c.nibble_buffer
        else EdgeOutcome.crcError) := by
  have hn0 : ¬ nibbleOf c.tick_time_ns t < 0 := Int.not_lt.mpr h0
  have hn1 : ¬ nibbleOf c.tick_time_ns t > SENT_MAX_INTERVAL := by
    unfold SENT_MAX_INTERVAL; omega
  unfold channelStep
  rw [hs]
  simp only [hn0, hn1, if_false, if_true]
  split <;> rfl

theorem SENT_ISR_Handler_fields (p : DecoderParams) (ch t : Nat) (d : SentDecoder)
    (hch : ch < SENT_CH_MAX) :
    (SENT_ISR_Handler p ch t d).channels ch = (channelStep p (d.channels ch) t).1 ∧
    (SENT_ISR_Handler p ch t d).rawData = d.rawData ∧
    (SENT_ISR_Handler p ch t d).data =
      (match (channelStep p (d.channels ch) t).2 with
        | EdgeOutcome.frame a b c =>
          setAt d.data ch
            { status_byte := a, signal1 := b, signal2 := c,
              frameCnt := (d.data ch).frameCnt + 1 }
        | _ => d.data) ∧
    (SENT_ISR_Handler p ch t d).stats.crcErr =
      d.stats.crcErr +
        (if (channelStep p (d.channels ch) t).2 = EdgeOutcome.crcError then 1 else 0) := by
  rw [SENT_ISR_Handler_of_lt p ch t d hch]
  cases (channelStep p (d.channels ch) t).2 <;>
    simp [applyOutcome, setAt_same]

theorem feedEdges_nibbles (p : DecoderParams) (ch : Nat) (hch : ch < SENT_CH_MAX)
    (ts : List Nat) (d : SentDecoder) (k : Nat)
    (hs : (d.channels ch).state = stateAfterNibbles k) (hk : k + ts.length ≤ 7)
    (hv : ∀ t ∈ ts, 0 ≤ nibbleOf (d.channels ch).tick_time_ns t ∧
      nibbleOf (d.channels ch).tick_time_ns t ≤ 15) :
    (feedEdges p ch ts d).channels ch =
      { state := stateAfterNibbles (k + ts.length),
        tick_time_ns := (d.channels ch).tick_time_ns,
        nibble_buffer := (d.channels ch).nibble_buffer ++
          ts.map (fun t => (nibbleOf (d.channels ch).tick_time_ns t).toNat),
        crc_accumulator :=
          (ts.map (fun t => (nibbleOf (d.channels ch).tick_time_ns t).toNat)).foldl
            (fun crc n => p.crcFold crc n % 16) (d.channels ch).crc_accumulator } ∧
    (feedEdges p ch ts d).rawData = d.rawData ∧
    (feedEdges p ch ts d).data = d.data ∧
    (feedEdges p ch ts d).stats.crcErr = d.stats.crcErr := by
  induction ts generalizing d k with
  | nil =>
    refine ⟨?_, rfl, rfl, rfl⟩
    show d.channels ch = _
    simp [← hs]
  | cons t rest ih =>
    have hk7 : k < 7 := by simp at hk; omega
    obtain ⟨ht0, ht1⟩ := hv t (List.mem_cons_self _ _)
    obtain ⟨f1, f2, f3, f4⟩ := SENT_ISR_Handler_fields p ch t d hch
    rw [channelStep_nibble p (d.channels ch) t k hs hk7 ht0 ht1] at f1 f3 f4
    simp only [reduceCtorEq, if_false, Nat.add_zero] at f3 f4
    have hs2 : ((SENT_ISR_Handler p ch t d).channels ch).state = stateAfterNibbles (k + 1) := by
      rw [f1]
    have htick : ((SENT_ISR_Handler p ch t d).channels ch).tick_time_ns =
        (d.channels ch).tick_time_ns := by rw [f1]
    have hv2 : ∀ u ∈ rest,
        0 ≤ nibbleOf ((SENT_ISR_Handler p ch t d).channels ch).tick_time_ns u ∧
        nibbleOf ((SENT_ISR_Handler p ch t d).channels ch).tick_time_ns u ≤ 15 := by
      intro u hu
      rw [htick]
      exact hv u (List.mem_cons_of_mem _ hu)
    obtain ⟨g1, g2, g3, g4⟩ :=
      ih (SENT_ISR_Handler p ch t d) (k + 1) hs2 (by simp at hk ⊢; omega) hv2
    have hfeed : feedEdges p ch (t :: rest) d = feedEdges p ch rest (SENT_ISR_Handler p ch t d) := rfl
    rw [hfeed]
    refine ⟨?_, g2.trans f2, g3.trans f3, g4.trans f4⟩
    rw [g1, htick, f1]
    simp [Nat.add_assoc, Nat.add_comm 1]

theorem feedEdges_frame (p : DecoderParams) (ch : Nat) (hch : ch < SENT_CH_MAX)
    (d : SentDecoder) (sync : Nat) (ticks : List Nat) (last : Nat)
    (hstate : (d.channels ch).state = SM_SENT_SYNC_STATE)
    (hsync : p.syncConsistent (d.channels ch).tick_time_ns sync = true)
    (hlen : ticks.length = 7)
    (hvalid : ∀ t ∈ ticks, 0 ≤ nibbleOf (sync / 44) t ∧ nibbleOf (sync / 44) t ≤ 15)
    (hlast0 : 0 ≤ nibbleOf (sync / 44) last) (hlast1 : nibbleOf (sync / 44) last ≤ 15) :
    (feedEdges p ch (sync :: ticks ++ [last]) d).channels ch =
      { state := SM_SENT_SYNC_STATE, tick_time_ns := sync / 44, nibble_buffer := [],
        crc_accumulator :=
          specFrameCrc p (ticks.map (fun t => (nibbleOf (sync / 44) t).toNat)) } ∧
    (feedEdges p ch (sync :: ticks ++ [last]) d).rawData = d.rawData ∧
    (feedEdges p ch (sync :: ticks ++ [last]) d).data =
      (if (nibbleOf (sync / 44) last).toNat =
          specFrameCrc p (ticks.map (fun t => (nibbleOf (sync / 44) t).toNat)) then
        setAt d.data ch
          { status_byte := (ticks.map (fun t => (nibbleOf (sync / 44) t).toNat)).getD 0 0,
            signal1 :=
              (((ticks.map (fun t => (nibbleOf (sync / 44) t).toNat)).getD 1 0) <<< 8) |||
              (((ticks.map (fun t => (nibbleOf (sync / 44) t).toNat)).getD 2 0) <<< 4) |||
              ((ticks.map (fun t => (nibbleOf (sync / 44) t).toNat)).getD 3 0),
            signal2 :=
              (((ticks.map (fun t => (nibbleOf (sync / 44) t).toNat)).getD 4 0) <<< 8) |||
              (((ticks.map (fun t => (nibbleOf (sync / 44) t).toNat)).getD 5 0) <<< 4) |||
              ((ticks.map (fun t => (nibbleOf (sync / 44) t).toNat)).getD 6 0),
            frameCnt := (d.data ch).frameCnt + 1 }
       else d.data) ∧
    (feedEdges p ch (sync :: ticks ++ [last]) d).stats.crcErr =
      d.stats.crcErr +
        (if (nibbleOf (sync / 44) last).toNat =
            specFrameCrc p (ticks.map (fun t => (nibbleOf (sync / 44) t).toNat)) then 0
         else 1) := by
  -- the sync pulse
  obtain ⟨a1, a2, a3, a4⟩ := SENT_ISR_Handler_fields p ch sync d hch
  rw [channelStep_sync p (d.channels ch) sync hstate hsync] at a1 a3 a4
  simp only [reduceCtorEq, if_false, Nat.add_zero] at a3 a4
  -- the seven nibbles
  have hsA : ((SENT_ISR_Handler p ch sync d).channels ch).state = stateAfterNibbles 0 := by
    rw [a1]; rfl
  have htA : ((SENT_ISR_Handler p ch sync d).channels ch).tick_time_ns = sync / 44 := by
    rw [a1]
  obtain ⟨b1, b2, b3, b4⟩ :=
    feedEdges_nibbles p ch hch ticks (SENT_ISR_Handler p ch sync d) 0 hsA (by omega)
      (by rw [htA]; exact hvalid)
  rw [htA, hlen] at b1
  rw [a1] at b1
  simp only [List.nil_append] at b1
  -- the CRC nibble
  obtain ⟨c1, c2, c3, c4⟩ :=
    SENT_ISR_Handler_fields p ch last (feedEdges p ch ticks (SENT_ISR_Handler p ch sync d)) hch
  have hcs : channelStep p
      ((feedEdges p ch ticks (SENT_ISR_Handler p ch sync d)).channels ch) last = _ :=
    channelStep_crc p _ last (by rw [b1]; rfl) (by rw [b1]; exact hlast0)
      (by rw [b1]; exact hlast1)
  rw [hcs] at c1 c3 c4
  rw [b1] at c1 c3 c4
  have hfeed : feedEdges p ch (sync :: ticks ++ [last]) d =
      SENT_ISR_Handler p ch last (feedEdges p ch ticks (SENT_ISR_Handler p ch sync d)) := by
    unfold feedEdges
    rw [List.cons_append, List.foldl_cons, List.foldl_append, List.foldl_cons, List.foldl_nil]
  rw [hfeed]
  have c3b : (SENT_ISR_Handler p ch last
        (feedEdges p ch ticks (SENT_ISR_Handler p ch sync d))).data =
      (match (if (nibbleOf (sync / 44) last).toNat =
            specFrameCrc p (ticks.map (fun t => (nibbleOf (sync / 44) t).toNat)) then
          assembleFrame (ticks.map (fun t => (nibbleOf (sync / 44) t).toNat))
        else EdgeOutcome.crcError) with
        | EdgeOutcome.frame a b c =>
          setAt (feedEdges p ch ticks (SENT_ISR_Handler p ch sync d)).data ch
            { status_byte := a, signal1 := b, signal2 := c,
              frameCnt :=
                ((feedEdges p ch ticks (SENT_ISR_Handler p ch sync d)).data ch).frameCnt + 1 }
        | _ => (feedEdges p ch ticks (SENT_ISR_Handler p ch sync d)).data) := c3
  have c4b : (SENT_ISR_Handler p ch last
        (feedEdges p ch ticks (SENT_ISR_Handler p ch sync d))).stats.crcErr =
      (feedEdges p ch ticks (SENT_ISR_Handler p ch sync d)).stats.crcErr +
        (if (if (nibbleOf (sync / 44) last).toNat =
              specFrameCrc p (ticks.map (fun t => (nibbleOf (sync / 44) t).toNat)) then
            assembleFrame (ticks.map (fun t => (nibbleOf (sync / 44) t).toNat))
          else EdgeOutcome.crcError) = EdgeOutcome.crcError then 1 else 0) := c4
  rw [b3, a3] at c3b
  rw [b4, a4] at c4b
  refine ⟨?_, c2.trans (b2.trans a2), ?_, ?_⟩
  · rw [c1]; rfl
  · rw [c3b]
    by_cases hm : (nibbleOf (sync / 44) last).toNat =
        specFrameCrc p (ticks.map (fun t => (nibbleOf (sync / 44) t).toNat))
    · rw [if_pos hm, if_pos hm]; rfl
    · rw [if_neg hm, if_neg hm]
  · rw [c4b]
    by_cases hm : (nibbleOf (sync / 44) last).toNat =
        specFrameCrc p (ticks.map (fun t => (nibbleOf (sync / 44) t).toNat))
    · rw [if_pos hm, if_pos hm]
      simp [assembleFrame]
    · rw [if_neg hm, if_neg hm]
      simp

end decoder

/-- C6: on a valid channel waiting for a sync pulse, feed a valid frame (accepted
sync, seven in-range nibbles, CRC nibble equal to the running CRC) and then the
same frame with another in-range CRC nibble.  After the first frame `SENT_GetData`
is the frame's decoded value and the frame count is one higher; after the second
`SENT_GetData` is still that value, the CRC error counter is exactly one higher
and the frame count is unchanged. -/
theorem crc_rejection_keeps_last_good (p : DecoderParams) (d : SentDecoder) (ch : Nat)
    (sync : Nat) (ticks : List Nat) (crcTicks badTicks : Nat)
    (hch : ch < SENT_CH_MAX)
    (hstate : (d.channels ch).state = SM_SENT_SYNC_STATE)
    (hsync1 : p.syncConsistent (d.channels ch).tick_time_ns sync = true)
    (hsync2 : p.syncConsistent (sync / 44) sync = true)
    (hlen : ticks.length = 7)
    (hvalid : ∀ t ∈ ticks, 0 ≤ nibbleOf (sync / 44) t ∧ nibbleOf (sync / 44) t ≤ 15)
    (hcrc : nibbleOf (sync / 44) crcTicks = (specFrameCrc p (frameNibbles sync ticks) : Int))
    (hbad0 : 0 ≤ nibbleOf (sync / 44) badTicks) (hbad1 : nibbleOf (sync / 44) badTicks ≤ 15)
    (hbad : nibbleOf (sync / 44) badTicks ≠ (specFrameCrc p (frameNibbles sync ticks) : Int)) :
    SENT_GetData p (feedEdges p ch (sync :: ticks ++ [crcTicks]) d) ch =
      specDecodedValue p d.rawData (frameNibbles sync ticks) ∧
    SENT_GetFrameCnt (feedEdges p ch (sync :: ticks ++ [crcTicks]) d) ch =
      SENT_GetFrameCnt d ch + 1 ∧
    SENT_GetCrcErrCnt (feedEdges p ch (sync :: ticks ++ [crcTicks]) d) = SENT_GetCrcErrCnt d ∧
    SENT_GetData p
        (feedEdges p ch (sync :: ticks ++ [badTicks])
          (feedEdges p ch (sync :: ticks ++ [crcTicks]) d)) ch =
      specDecodedValue p d.rawData (frameNibbles sync ticks) ∧
    SENT_GetCrcErrCnt
        (feedEdges p ch (sync :: ticks ++ [badTicks])
          (feedEdges p ch (sync :: ticks ++ [crcTicks]) d)) =
      SENT_GetCrcErrCnt (feedEdges p ch (sync :: ticks ++ [crcTicks]) d) + 1 ∧
    SENT_GetFrameCnt
        (feedEdges p ch (sync :: ticks ++ [badTicks])
          (feedEdges p ch (sync :: ticks ++ [crcTicks]) d)) ch =
      SENT_GetFrameCnt (feedEdges p ch (sync :: ticks ++ [crcTicks]) d) ch := by
  have hlt := specFrameCrc_lt p (frameNibbles sync ticks)
  have hgood : (nibbleOf (sync / 44) crcTicks).toNat =
      specFrameCrc p (ticks.map (fun t => (nibbleOf (sync / 44) t).toNat)) := by
    rw [hcrc]; rfl
  have hwrong : ¬ (nibbleOf (sync / 44) badTicks).toNat =
      specFrameCrc p (ticks.map (fun t => (nibbleOf (sync / 44) t).toNat)) := by
    intro h
    apply hbad
    have h2 : (nibbleOf (sync / 44) badTicks).toNat = specFrameCrc p (frameNibbles sync ticks) := h
    rw [← h2]
    exact (Int.toNat_of_nonneg hbad0).symm
  -- first frame
  obtain ⟨a1, a2, a3, a4⟩ := feedEdges_frame p ch hch d sync ticks crcTicks hstate hsync1 hlen
    hvalid (by rw [hcrc]; exact Int.ofNat_nonneg _) (by rw [hcrc]; omega)
  rw [if_pos hgood] at a3 a4
  -- second frame
  obtain ⟨_, b2, b3, b4⟩ := feedEdges_frame p ch hch
    (feedEdges p ch (sync :: ticks ++ [crcTicks]) d) sync ticks badTicks
    (by rw [a1]) (by rw [a1]; exact hsync2) hlen hvalid hbad0 hbad1
  rw [if_neg hwrong] at b3 b4
  have hdata1 : SENT_GetData p (feedEdges p ch (sync :: ticks ++ [crcTicks]) d) ch =
      specDecodedValue p d.rawData (frameNibbles sync ticks) := by
    unfold SENT_GetData specDecodedValue
    rw [a2, a3, setAt_same]
    rfl
  refine ⟨hdata1, ?_, ?_, ?_, ?_, ?_⟩
  · unfold SENT_GetFrameCnt
    rw [a3, setAt_same]
  · unfold SENT_GetCrcErrCnt
    rw [a4, Nat.add_zero]
  · rw [← hdata1]
    unfold SENT_GetData
    rw [b2, b3]
  · unfold SENT_GetCrcErrCnt
    rw [b4]
  · unfold SENT_GetFrameCnt
    rw [b3]

/-- C6, witness: channel 0 after a first plausible sync pulse of 440 timer counts;
the frame with nibbles 0..6 has CRC nibble 7 (190 counts) and decodes to 0x123;
the copy with CRC nibble 4 (160 counts) is rejected and leaves 0x123 in place. -/
theorem crc_rejection_keeps_last_good_witness :
    SENT_GetData exampleParams
      (feedEdges exampleParams 0 (440 :: exampleTicks ++ [190])
        (SENT_ISR_Handler exampleParams 0 440 SentDecoder_Init)) 0 = 291 ∧
    SENT_GetData exampleParams
      (feedEdges exampleParams 0 (440 :: exampleTicks ++ [160])
        (feedEdges exampleParams 0 (440 :: exampleTicks ++ [190])
          (SENT_ISR_Handler exampleParams 0 440 SentDecoder_Init))) 0 = 291 ∧
    SENT_GetCrcErrCnt
      (feedEdges exampleParams 0 (440 :: exampleTicks ++ [160])
        (feedEdges exampleParams 0 (440 :: exampleTicks ++ [190])
          (SENT_ISR_Handler exampleParams 0 440 SentDecoder_Init))) =
      SENT_GetCrcErrCnt
        (feedEdges exampleParams 0 (440 :: exampleTicks ++ [190])
          (SENT_ISR_Handler exampleParams 0 440 SentDecoder_Init)) + 1 := by
  have h := crc_rejection_keeps_last_good exampleParams
    (SENT_ISR_Handler exampleParams 0 440 SentDecoder_Init) 0 440 exampleTicks 190 160
    (by decide) (by decide) (by decide) (by decide) (by decide) (by decide) (by decide)
    (by decide) (by decide) (by decide)
  exact ⟨by decide, h.2.2.2.1.trans (by decide), h.2.2.2.2.1⟩

end SentBox

namespace DigitalInputs

/-! ## Theorems: digital-inputs CAN receive path -/

section scan

theorem foldl_overwrite {α β : Type} (f : β → α) (ms : List β) (init : α) :
    ms.foldl (fun _ m => f m) init = (ms.getLast?.map f).getD init := by
  induction ms generalizing init with
  | nil => rfl
  | cons m rest ih =>
    rw [List.foldl_cons, ih]
    cases rest with
    | nil => rfl
    | cons m2 rest2 =>
      rw [List.getLast?_cons_cons]
      cases h : (m2 :: rest2).getLast? with
      | none => simp at h
      | some x => simp

theorem scanBoardIds_fields (boardId : Int) (boardIdx : Nat) (ids : List Int) (boardRev : Nat)
    (st : CanState) :
    (scanBoardIds boardId boardIdx ids boardRev st).isGoodCanPackets = st.isGoodCanPackets ∧
    (scanBoardIds boardId boardIdx ids boardRev st).hasReceivedAnalog = st.hasReceivedAnalog ∧
    (scanBoardIds boardId boardIdx ids boardRev st).outputCount = st.outputCount ∧
    (scanBoardIds boardId boardIdx ids boardRev st).lowSideOutputCount = st.lowSideOutputCount ∧
    (scanBoardIds boardId boardIdx ids boardRev st).wasBoardDetectError = st.wasBoardDetectError ∧
    ∃ extra, (scanBoardIds boardId boardIdx ids boardRev st).chp = st.chp ++ extra ∧
      ∀ l ∈ extra, ∃ i r, l = ChpLine.boardDetected i r := by
  induction ids generalizing boardRev st with
  | nil => exact ⟨rfl, rfl, rfl, rfl, rfl, [], by simp [scanBoardIds], by simp⟩
  | cons id rest ih =>
    unfold scanBoardIds
    by_cases hpos : id > 0
    · rw [if_pos hpos]
      by_cases hm : boardId = id
      · rw [if_pos hm]
        obtain ⟨h1, h2, h3, h4, h5, extra, h6, h7⟩ := ih (boardRev + 1)
          { st with currentBoard := some boardIdx, currentBoardRev := (boardRev : Int),
                    chp := st.chp ++ [ChpLine.boardDetected boardIdx boardRev] }
        refine ⟨h1, h2, h3, h4, h5, ChpLine.boardDetected boardIdx boardRev :: extra, ?_, ?_⟩
        · rw [h6]; simp
        · intro l hl
          rcases List.mem_cons.mp hl with h | h
          · exact ⟨_, _, h⟩
          · exact h7 l h
      · rw [if_neg hm]
        exact ih (boardRev + 1) st
    · rw [if_neg hpos]
      exact ⟨rfl, rfl, rfl, rfl, rfl, [], by simp, by simp⟩

theorem scanBoardIds_current (boardId : Int) (boardIdx : Nat) (ids : List Int) (boardRev : Nat)
    (st : CanState) :
    ((scanBoardIds boardId boardIdx ids boardRev st).currentBoard,
     (scanBoardIds boardId boardIdx ids boardRev st).currentBoardRev) =
    ((((ids.takeWhile (fun id => 0 < id)).enumFrom boardRev).filter
        (fun rid => boardId = rid.2)).map (fun rid => (boardIdx, rid.1))).foldl
      (fun _ m => (some m.1, (m.2 : Int))) (st.currentBoard, st.currentBoardRev) := by
  induction ids generalizing boardRev st with
  | nil => rfl
  | cons id rest ih =>
    unfold scanBoardIds
    by_cases hpos : id > 0
    · have hpos2 : (0 : Int) < id := hpos
      rw [if_pos hpos, ih]
      by_cases hm : boardId = id
      · simp [List.takeWhile_cons, hpos2, List.enumFrom_cons, List.filter_cons, hm]
      · simp [List.takeWhile_cons, hpos2, List.enumFrom_cons, List.filter_cons, hm]
    · have hpos2 : ¬ (0 : Int) < id := hpos
      rw [if_neg hpos]
      simp [List.takeWhile_cons, hpos2]

theorem scanBoards_fields (boardId : Int) (boards : List BoardConfig) (boardIdx : Nat)
    (st : CanState) :
    (scanBoards boardId boards boardIdx st).isGoodCanPackets = st.isGoodCanPackets ∧
    (scanBoards boardId boards boardIdx st).hasReceivedAnalog = st.hasReceivedAnalog ∧
    (scanBoards boardId boards boardIdx st).outputCount = st.outputCount ∧
    (scanBoards boardId boards boardIdx st).lowSideOutputCount = st.lowSideOutputCount ∧
    (scanBoards boardId boards boardIdx st).wasBoardDetectError = st.wasBoardDetectError ∧
    ∃ extra, (scanBoards boardId boards boardIdx st).chp = st.chp ++ extra ∧
      ∀ l ∈ extra, ∃ i r, l = ChpLine.boardDetected i r := by
  induction boards generalizing boardIdx st with
  | nil => exact ⟨rfl, rfl, rfl, rfl, rfl, [], by simp [scanBoards], by simp⟩
  | cons c rest ih =>
    unfold scanBoards
    obtain ⟨a1, a2, a3, a4, a5, e1, a6, a7⟩ := scanBoardIds_fields boardId boardIdx c.boardIds 0 st
    obtain ⟨b1, b2, b3, b4, b5, e2, b6, b7⟩ :=
      ih (boardIdx + 1) (scanBoardIds boardId boardIdx c.boardIds 0 st)
    refine ⟨b1.trans a1, b2.trans a2, b3.trans a3, b4.trans a4, b5.trans a5, e1 ++ e2, ?_, ?_⟩
    · rw [b6, a6, List.append_assoc]
    · intro l hl
      rcases List.mem_append.mp hl with h | h
      · exact a7 l h
      · exact b7 l h

theorem scanBoards_current (boardId : Int) (boards : List BoardConfig) (boardIdx : Nat)
    (st : CanState) :
    ((scanBoards boardId boards boardIdx st).currentBoard,
     (scanBoards boardId boards boardIdx st).currentBoardRev) =
    ((boards.enumFrom boardIdx).flatMap (fun ic =>
        ((specListedIds ic.2).enum.filter (fun rid => boardId = rid.2)).map
          (fun rid => (ic.1, rid.1)))).foldl
      (fun _ m => (some m.1, (m.2 : Int))) (st.currentBoard, st.currentBoardRev) := by
  induction boards generalizing boardIdx st with
  | nil => rfl
  | cons c rest ih =>
    unfold scanBoards
    rw [ih, scanBoardIds_current, List.enumFrom_cons, List.flatMap_cons, List.foldl_append]
    rfl

theorem scanBoards_last (boardId : Int) (boards : List BoardConfig) (st : CanState) :
    ((scanBoards boardId boards 0 st).currentBoard,
     (scanBoards boardId boards 0 st).currentBoardRev) =
    ((specMatches boards boardId).getLast?.map
      (fun m => (some m.1, (m.2 : Int)))).getD (st.currentBoard, st.currentBoardRev) := by
  rw [scanBoards_current, foldl_overwrite]
  rfl

theorem specMatches_ne_nil_iff (boards : List BoardConfig) (boardId : Int) :
    specMatches boards boardId ≠ [] ↔ ∃ c ∈ boards, boardId ∈ specListedIds c := by
  constructor
  · intro h
    obtain ⟨m, hm⟩ := List.exists_mem_of_ne_nil _ h
    obtain ⟨ic, hic, hm2⟩ := List.mem_flatMap.mp hm
    obtain ⟨rid, hrid, _⟩ := List.mem_map.mp hm2
    obtain ⟨hrid1, hrid2⟩ := List.mem_filter.mp hrid
    refine ⟨ic.2, ?_, ?_⟩
    · exact List.mem_iff_getElem?.mpr ⟨_, List.mem_enum_iff_getElem?.mp hic⟩
    · have : rid.2 ∈ specListedIds ic.2 :=
        List.mem_iff_getElem?.mpr ⟨_, List.mem_enum_iff_getElem?.mp hrid1⟩
      have hb : boardId = rid.2 := by simpa using hrid2
      rw [hb]; exact this
  · rintro ⟨c, hc, hid⟩
    obtain ⟨i, hi⟩ := List.mem_iff_getElem?.mp hc
    obtain ⟨r, hr⟩ := List.mem_iff_getElem?.mp hid
    apply List.ne_nil_of_mem (a := (i, r))
    refine List.mem_flatMap.mpr ⟨(i, c), List.mk_mem_enum_iff_getElem?.mpr hi, ?_⟩
    refine List.mem_map.mpr ⟨(r, boardId), ?_, rfl⟩
    exact List.mem_filter.mpr ⟨List.mk_mem_enum_iff_getElem?.mpr hr, by simp⟩

end scan

section summaries

theorem boardDetected_lines_harmless (extra : List ChpLine)
    (h : ∀ l ∈ extra, ∃ i r, l = ChpLine.boardDetected i r) :
    extra.all (fun l => !l.isPacketError) = true ∧ ChpLine.unknownBoard ∉ extra := by
  constructor
  · rw [List.all_eq_true]
    intro l hl
    obtain ⟨i, r, rfl⟩ := h l hl
    rfl
  · intro hmem
    obtain ⟨i, r, hc⟩ := h _ hmem
    cases hc

theorem printRxFrame_summary (env : BenchEnv) (frame : CANRxFrame) (kind : FrameKind)
    (st : CanState) :
    ∃ extra, printRxFrame env frame kind st = { st with chp := st.chp ++ extra } ∧
      extra.all (fun l => !l.isPacketError) = true ∧ ChpLine.unknownBoard ∉ extra := by
  unfold printRxFrame
  by_cases hd : env.displayCanReceive = false
  · rw [if_pos hd]
    exact ⟨[], by simp, by simp, by simp⟩
  · rw [if_neg hd]
    exact ⟨_, rfl, by simp [ChpLine.isPacketError], by simp⟩

theorem checkChannel_cases (board : BoardConfig) (msg : List Nat) (st : CanState) (ch : Nat) :
    checkChannel board msg st ch = st ∨
    checkChannel board msg st ch = canPacketError (ChpLine.badChannel ch (byteAt msg ch)) st := by
  unfold checkChannel
  by_cases hn : (board.channels ch).hasName = false
  · left; rw [if_pos hn]
  · rw [if_neg hn]
    by_cases ho : (board.channels ch).outOfRange (byteAt msg ch) = true
    · right; rw [if_pos ho]
    · left; rw [if_neg ho]

theorem channels_summary (board : BoardConfig) (msg : List Nat) (chs : List Nat)
    (st : CanState) :
    (chs.foldl (checkChannel board msg) st).hasReceivedAnalog = st.hasReceivedAnalog ∧
    (chs.foldl (checkChannel board msg) st).wasBoardDetectError = st.wasBoardDetectError ∧
    (chs.foldl (checkChannel board msg) st).currentBoard = st.currentBoard ∧
    (chs.foldl (checkChannel board msg) st).currentBoardRev = st.currentBoardRev ∧
    ∃ extra, (chs.foldl (checkChannel board msg) st).chp = st.chp ++ extra ∧
      (chs.foldl (checkChannel board msg) st).isGoodCanPackets =
        (st.isGoodCanPackets && extra.all (fun l => !l.isPacketError)) ∧
      ChpLine.unknownBoard ∉ extra := by
  induction chs generalizing st with
  | nil => exact ⟨rfl, rfl, rfl, rfl, [], by simp, by simp, by simp⟩
  | cons ch rest ih =>
    rw [List.foldl_cons]
    obtain ⟨h1, h2, h3, h4, extra, h5, h6, h7⟩ := ih (checkChannel board msg st ch)
    rcases checkChannel_cases board msg st ch with hc | hc
    · rw [hc] at h1 h2 h3 h4 h5 h6 ⊢
      exact ⟨h1, h2, h3, h4, extra, h5, h6, h7⟩
    · rw [hc] at h1 h2 h3 h4 h5 h6 ⊢
      refine ⟨h1, h2, h3, h4, ChpLine.badChannel ch (byteAt msg ch) :: extra, ?_, ?_, ?_⟩
      · rw [h5]; simp [canPacketError]
      · rw [h6]; simp [canPacketError, ChpLine.isPacketError]
      · simp [h7]

theorem receiveRawAnalog_summary (env : BenchEnv) (msg : List Nat) (st : CanState) :
    (receiveRawAnalog env msg st).hasReceivedAnalog =
      (st.hasReceivedAnalog || st.currentBoard.isSome) ∧
    (receiveRawAnalog env msg st).wasBoardDetectError = st.wasBoardDetectError ∧
    (receiveRawAnalog env msg st).currentBoard = st.currentBoard ∧
    (receiveRawAnalog env msg st).currentBoardRev = st.currentBoardRev ∧
    ∃ extra, (receiveRawAnalog env msg st).chp = st.chp ++ extra ∧
      (receiveRawAnalog env msg st).isGoodCanPackets =
        (st.isGoodCanPackets && extra.all (fun l => !l.isPacketError)) ∧
      ChpLine.unknownBoard ∉ extra := by
  unfold receiveRawAnalog
  split
  · rename_i h
    exact ⟨by simp [h], rfl, rfl, rfl, [], by simp, by simp, by simp⟩
  · rename_i boardIdx h
    split
    · exact ⟨by simp [h], rfl, rfl, rfl, [], by simp, by simp, by simp⟩
    · rename_i board hb
      obtain ⟨h1, h2, h3, h4, extra, h5, h6, h7⟩ :=
        channels_summary board msg (List.range 8) { st with hasReceivedAnalog := true }
      exact ⟨by rw [h1]; simp [h], h2, h3, h4, extra, h5, h6, h7⟩

theorem receiveOutputMetaInfo_summary (env : BenchEnv) (msg : List Nat) (st : CanState) :
    (receiveOutputMetaInfo env msg st).hasReceivedAnalog = st.hasReceivedAnalog ∧
    (receiveOutputMetaInfo env msg st).wasBoardDetectError = st.wasBoardDetectError ∧
    (receiveOutputMetaInfo env msg st).currentBoard = st.currentBoard ∧
    (receiveOutputMetaInfo env msg st).currentBoardRev = st.currentBoardRev ∧
    ∃ extra, (receiveOutputMetaInfo env msg st).chp = st.chp ++ extra ∧
      (receiveOutputMetaInfo env msg st).isGoodCanPackets =
        (st.isGoodCanPackets && extra.all (fun l => !l.isPacketError)) ∧
      ChpLine.unknownBoard ∉ extra := by
  unfold receiveOutputMetaInfo
  by_cases hh : byteAt msg 0 = env.CAN_BENCH_HEADER
  · rw [if_pos hh]
    by_cases hd : env.displayCanReceive = true
    · rw [if_pos hd]
      exact ⟨rfl, rfl, rfl, rfl, _, rfl, by simp [ChpLine.isPacketError], by simp⟩
    · rw [if_neg hd]
      exact ⟨rfl, rfl, rfl, rfl, [], by simp, by simp, by simp⟩
  · rw [if_neg hh]
    exact ⟨rfl, rfl, rfl, rfl, [], by simp, by simp, by simp⟩

theorem receiveBoardStatus_stages (env : BenchEnv) (msg : List Nat) (st : CanState) :
    ∃ st1 st2 : CanState,
      (st1.isGoodCanPackets = st.isGoodCanPackets ∧
        st1.hasReceivedAnalog = st.hasReceivedAnalog ∧
        st1.wasBoardDetectError = st.wasBoardDetectError ∧
        st1.currentBoard = st.currentBoard ∧ st1.currentBoardRev = st.currentBoardRev ∧
        ∃ e1, st1.chp = st.chp ++ e1 ∧ e1.all (fun l => !l.isPacketError) = true ∧
          ChpLine.unknownBoard ∉ e1) ∧
      st2 = (if st1.currentBoard = none then scanBoards (decodeBoardId msg) env.boards 0 st1
             else st1) ∧
      receiveBoardStatus env msg st =
        (if st2.currentBoard = none ∧ st2.wasBoardDetectError = false then
          { canPacketError ChpLine.unknownBoard st2 with wasBoardDetectError := true }
         else st2) := by
  refine ⟨_, _, ?_, rfl, rfl⟩
  by_cases hd : env.displayCanReceive = true
  · rw [if_pos hd]
    exact ⟨rfl, rfl, rfl, rfl, rfl, _, rfl, by simp [ChpLine.isPacketError], by simp⟩
  · rw [if_neg hd]
    exact ⟨rfl, rfl, rfl, rfl, rfl, [], by simp, by simp, by simp⟩

theorem receiveBoardStatus_summary (env : BenchEnv) (msg : List Nat) (st : CanState) :
    (receiveBoardStatus env msg st).hasReceivedAnalog = st.hasReceivedAnalog ∧
    (receiveBoardStatus env msg st).wasBoardDetectError =
      (st.wasBoardDetectError || (receiveBoardStatus env msg st).currentBoard.isNone) ∧
    ((receiveBoardStatus env msg st).currentBoard,
      (receiveBoardStatus env msg st).currentBoardRev) =
      (if st.currentBoard = none then
        ((specMatches env.boards (decodeBoardId msg)).getLast?.map
          (fun m => (some m.1, (m.2 : Int)))).getD (st.currentBoard, st.currentBoardRev)
       else (st.currentBoard, st.currentBoardRev)) ∧
    ∃ extra, (receiveBoardStatus env msg st).chp = st.chp ++ extra ∧
      (receiveBoardStatus env msg st).isGoodCanPackets =
        (st.isGoodCanPackets && extra.all (fun l => !l.isPacketError)) ∧
      extra.count ChpLine.unknownBoard =
        (if (receiveBoardStatus env msg st).currentBoard = none ∧
            st.wasBoardDetectError = false then 1 else 0) ∧
      (extra.all (fun l => !l.isPacketError) = (extra.count ChpLine.unknownBoard == 0)) := by
  obtain ⟨st1, st2, ⟨a1, a2, a3, a4, a5, e1, a6, a7, a8⟩, h2, h3⟩ :=
    receiveBoardStatus_stages env msg st
  generalize receiveBoardStatus env msg st = r at h3 ⊢
  -- the scan stage
  have hs : st2.isGoodCanPackets = st.isGoodCanPackets ∧
      st2.hasReceivedAnalog = st.hasReceivedAnalog ∧
      st2.wasBoardDetectError = st.wasBoardDetectError ∧
      (st2.currentBoard, st2.currentBoardRev) =
        (if st.currentBoard = none then
          ((specMatches env.boards (decodeBoardId msg)).getLast?.map
            (fun m => (some m.1, (m.2 : Int)))).getD (st.currentBoard, st.currentBoardRev)
         else (st.currentBoard, st.currentBoardRev)) ∧
      ∃ e2, st2.chp = st.chp ++ e2 ∧ e2.all (fun l => !l.isPacketError) = true ∧
        ChpLine.unknownBoard ∉ e2 := by
    by_cases hn : st.currentBoard = none
    · rw [if_pos (a4.trans hn)] at h2
      obtain ⟨b1, b2, _, _, b5, e, b6, b7⟩ :=
        scanBoards_fields (decodeBoardId msg) env.boards 0 st1
      have hl := scanBoards_last (decodeBoardId msg) env.boards st1
      rw [← h2] at b1 b2 b5 b6 hl
      obtain ⟨c1, c2⟩ := boardDetected_lines_harmless e b7
      refine ⟨b1.trans a1, b2.trans a2, b5.trans a3, ?_, e1 ++ e, ?_, ?_, ?_⟩
      · rw [if_pos hn, hl, a4, a5]
      · rw [b6, a6, List.append_assoc]
      · rw [List.all_append, a7, c1]; rfl
      · simp [a8, c2]
    · have hn1 : ¬ st1.currentBoard = none := fun h => hn (a4.symm.trans h)
      rw [if_neg hn1] at h2
      subst h2
      refine ⟨a1, a2, a3, ?_, e1, a6, a7, a8⟩
      rw [if_neg hn, a4, a5]
  obtain ⟨s1, s2, s3, s4, e2, s5, s6, s7⟩ := hs
  have hcount : e2.count ChpLine.unknownBoard = 0 := List.count_eq_zero.mpr s7
  by_cases hf : st2.currentBoard = none ∧ st2.wasBoardDetectError = false
  · rw [if_pos hf] at h3
    subst h3
    have hcur : st2.currentBoard = none := hf.1
    have hw : st.wasBoardDetectError = false := s3.symm.trans hf.2
    refine ⟨s2, ?_, s4, e2 ++ [ChpLine.unknownBoard], ?_, ?_, ?_, ?_⟩
    · simp [canPacketError, hcur]
    · simp [canPacketError, s5]
    · simp [canPacketError, ChpLine.isPacketError]
    · simp [canPacketError, hcur, hw, hcount]
    · simp [ChpLine.isPacketError]
  · rw [if_neg hf] at h3
    rw [h3]
    refine ⟨s2, ?_, s4, e2, s5, ?_, ?_, by rw [s6, hcount]; rfl⟩
    · rw [s3]
      cases hw : st.wasBoardDetectError with
      | true => rfl
      | false =>
        have : ¬ st2.currentBoard = none := fun h => hf ⟨h, s3.trans hw⟩
        cases hc : st2.currentBoard with
        | none => exact absurd hc this
        | some i => rfl
    · rw [s1, s6, Bool.and_true]
    · rw [hcount]
      by_cases hw : st.wasBoardDetectError = false
      · have : ¬ st2.currentBoard = none := fun h => hf ⟨h, s3.trans hw⟩
        rw [if_neg (fun h => this h.1)]
      · rw [if_neg (fun h => hw h.2)]

theorem processCanRxMessage_summary (env : BenchEnv) (st : CanState) (frame : CANRxFrame) :
    (processCanRxMessage env st frame).hasReceivedAnalog =
      (st.hasReceivedAnalog ||
        (decide (CAN_EID frame ≠ env.BENCH_TEST_BOARD_STATUS) &&
          decide (CAN_EID frame = env.BENCH_TEST_RAW_ANALOG) && st.currentBoard.isSome)) ∧
    ∃ extra, (processCanRxMessage env st frame).chp = st.chp ++ extra ∧
      (processCanRxMessage env st frame).isGoodCanPackets =
        (st.isGoodCanPackets && extra.all (fun l => !l.isPacketError)) ∧
      (st.wasBoardDetectError = true →
        (processCanRxMessage env st frame).wasBoardDetectError = true ∧
        extra.count ChpLine.unknownBoard = 0) := by
  unfold processCanRxMessage
  by_cases h1 : CAN_EID frame = env.BENCH_TEST_BOARD_STATUS
  · rw [if_pos h1]
    obtain ⟨e0, hp, hp1, hp2⟩ := printRxFrame_summary env frame FrameKind.boardStatus st
    obtain ⟨r1, r2, _, e, r4, r5, r6, _⟩ :=
      receiveBoardStatus_summary env frame.data8 (printRxFrame env frame FrameKind.boardStatus st)
    rw [hp] at r1 r2 r4 r5 r6
    rw [hp]
    refine ⟨by rw [r1]; simp [h1], e0 ++ e, by rw [r4]; simp, ?_, ?_⟩
    · rw [r5, List.all_append, hp1]; simp
    · intro hw
      constructor
      · rw [r2]; simp [hw]
      · rw [List.count_append, List.count_eq_zero.mpr hp2, r6]
        simp [hw]
  · rw [if_neg h1]
    by_cases h2 : CAN_EID frame = env.BENCH_TEST_RAW_ANALOG
    · rw [if_pos h2]
      obtain ⟨e0, hp, hp1, hp2⟩ := printRxFrame_summary env frame FrameKind.rawAnalog st
      obtain ⟨r1, r2, _, _, e, r4, r5, r6⟩ :=
        receiveRawAnalog_summary env frame.data8 (printRxFrame env frame FrameKind.rawAnalog st)
      rw [hp] at r1 r2 r4 r5
      rw [hp]
      have d1 : decide (CAN_EID frame ≠ env.BENCH_TEST_BOARD_STATUS) = true := decide_eq_true h1
      have d2 : decide (CAN_EID frame = env.BENCH_TEST_RAW_ANALOG) = true := decide_eq_true h2
      refine ⟨by rw [r1, d1, d2]; simp, e0 ++ e, by rw [r4]; simp, ?_, ?_⟩
      · rw [r5, List.all_append, hp1]; simp
      · intro hw
        constructor
        · rw [r2]; exact hw
        · rw [List.count_append, List.count_eq_zero.mpr hp2, List.count_eq_zero.mpr r6]
    · rw [if_neg h2]
      by_cases h3 : CAN_EID frame = env.BENCH_TEST_EVENT_COUNTERS
      · rw [if_pos h3]
        obtain ⟨e0, hp, hp1, hp2⟩ := printRxFrame_summary env frame FrameKind.eventCounters st
        rw [hp]
        exact ⟨by simp [h2], e0, rfl, by simp [hp1], fun hw => ⟨hw, List.count_eq_zero.mpr hp2⟩⟩
      · rw [if_neg h3]
        by_cases h4 : CAN_EID frame = env.BENCH_TEST_BUTTON_COUNTERS
        · rw [if_pos h4]
          obtain ⟨e0, hp, hp1, hp2⟩ := printRxFrame_summary env frame FrameKind.buttonCounters st
          rw [hp]
          exact ⟨by simp [h2], e0, rfl, by simp [hp1],
            fun hw => ⟨hw, List.count_eq_zero.mpr hp2⟩⟩
        · rw [if_neg h4]
          by_cases h5 : CAN_EID frame = env.BENCH_TEST_IO_META_INFO
          · rw [if_pos h5]
            obtain ⟨e0, hp, hp1, hp2⟩ := printRxFrame_summary env frame FrameKind.ioMetaInfo st
            obtain ⟨r1, r2, _, _, e, r4, r5, r6⟩ :=
              receiveOutputMetaInfo_summary env frame.data8
                (printRxFrame env frame FrameKind.ioMetaInfo st)
            rw [hp] at r1 r2 r4 r5
            rw [hp]
            refine ⟨by rw [r1]; simp [h2], e0 ++ e, by rw [r4]; simp, ?_, ?_⟩
            · rw [r5, List.all_append, hp1]; simp
            · intro hw
              constructor
              · rw [r2]; exact hw
              · rw [List.count_append, List.count_eq_zero.mpr hp2, List.count_eq_zero.mpr r6]
          · rw [if_neg h5]
            exact ⟨by simp [h2], [], by simp, by simp, fun hw => ⟨hw, rfl⟩⟩

theorem calls_keep_latch (env : BenchEnv) (calls : List CanCall) (st : CanState)
    (hw : st.wasBoardDetectError = true) :
    (calls.foldl (CanCall.run env) st).wasBoardDetectError = true ∧
    (calls.foldl (CanCall.run env) st).chp.count ChpLine.unknownBoard =
      st.chp.count ChpLine.unknownBoard := by
  induction calls generalizing st with
  | nil => exact ⟨hw, rfl⟩
  | cons c rest ih =>
    rw [List.foldl_cons]
    cases c with
    | rx frame =>
      obtain ⟨_, e, h1, _, h3⟩ := processCanRxMessage_summary env st frame
      obtain ⟨h4, h5⟩ := h3 hw
      obtain ⟨i1, i2⟩ := ih (processCanRxMessage env st frame) h4
      refine ⟨i1, ?_⟩
      show (List.foldl (CanCall.run env) (processCanRxMessage env st frame) rest).chp.count _ = _
      rw [i2, h1, List.count_append, h5, Nat.add_zero]
    | newTest =>
      exact ih (startNewCanTest st) hw

end summaries

/-! ### The claims on the CAN receive path -/

/-- C9: `receiveBoardStatus` decodes the board id as `256 * msg[0] + msg[1]`; with
`currentBoard` already non-null it leaves `currentBoard` and `currentBoardRev`
unchanged; with `currentBoard` null, `currentBoard` becomes non-null exactly when
some configuration lists the id among its positive ids before the first
non-positive entry, and then it and `currentBoardRev` are the last matching
(configuration, revision) pair in table order; the unknown-board error is printed
exactly when no board is set afterwards and `wasBoardDetectError` was still clear,
that flag is then set, and no later call prints the error again. -/
theorem receiveBoardStatus_detection (env : BenchEnv) (msg : List Nat) (st : CanState) :
    decodeBoardId msg = 256 * (byteAt msg 0 : Int) + (byteAt msg 1 : Int) ∧
    (st.currentBoard ≠ none →
      (receiveBoardStatus env msg st).currentBoard = st.currentBoard ∧
      (receiveBoardStatus env msg st).currentBoardRev = st.currentBoardRev) ∧
    (st.currentBoard = none →
      ((receiveBoardStatus env msg st).currentBoard ≠ none ↔
        ∃ c ∈ env.boards, decodeBoardId msg ∈ specListedIds c) ∧
      (∀ boardIdx boardRev,
        (specMatches env.boards (decodeBoardId msg)).getLast? = some (boardIdx, boardRev) →
        (receiveBoardStatus env msg st).currentBoard = some boardIdx ∧
        (receiveBoardStatus env msg st).currentBoardRev = (boardRev : Int))) ∧
    (∃ extra, (receiveBoardStatus env msg st).chp = st.chp ++ extra ∧
      extra.count ChpLine.unknownBoard =
        (if (receiveBoardStatus env msg st).currentBoard = none ∧
            st.wasBoardDetectError = false then 1 else 0) ∧
      (receiveBoardStatus env msg st).isGoodCanPackets =
        (st.isGoodCanPackets && (extra.count ChpLine.unknownBoard == 0))) ∧
    ((receiveBoardStatus env msg st).currentBoard = none →
      (receiveBoardStatus env msg st).wasBoardDetectError = true ∧
      ∀ calls : List CanCall,
        (calls.foldl (CanCall.run env) (receiveBoardStatus env msg st)).chp.count
            ChpLine.unknownBoard =
          (receiveBoardStatus env msg st).chp.count ChpLine.unknownBoard) := by
  obtain ⟨_, r2, r3, extra, r4, r5, r6, r7⟩ := receiveBoardStatus_summary env msg st
  refine ⟨?_, ?_, ?_, ⟨extra, r4, r6, by rw [r5, r7]⟩, ?_⟩
  · unfold decodeBoardId
    have hb : byteAt msg 1 < 2 ^ 8 := by unfold byteAt; omega
    rw [Nat.shiftLeft_eq, Nat.mul_comm, ← Nat.mul_add_lt_is_or hb]
    push_cast
    norm_num
  · intro hn
    rw [if_neg hn] at r3
    exact ⟨congrArg Prod.fst r3, congrArg Prod.snd r3⟩
  · intro hn
    rw [if_pos hn] at r3
    constructor
    · rw [← specMatches_ne_nil_iff]
      cases hl : (specMatches env.boards (decodeBoardId msg)).getLast? with
      | none =>
        rw [hl] at r3
        have hnil := List.getLast?_eq_none_iff.mp hl
        have hc : (receiveBoardStatus env msg st).currentBoard = st.currentBoard :=
          congrArg Prod.fst r3
        rw [hc, hn, hnil]
        simp
      | some m =>
        rw [hl] at r3
        have hc : (receiveBoardStatus env msg st).currentBoard = some m.1 :=
          congrArg Prod.fst r3
        have hne : specMatches env.boards (decodeBoardId msg) ≠ [] :=
          List.ne_nil_of_mem (List.mem_of_getLast?_eq_some hl)
        rw [hc]
        simp [hne]
    · intro boardIdx boardRev hl
      rw [hl] at r3
      exact ⟨congrArg Prod.fst r3, congrArg Prod.snd r3⟩
  · intro hnone
    have hw : (receiveBoardStatus env msg st).wasBoardDetectError = true := by
      rw [r2, hnone]; simp
    exact ⟨hw, fun calls => (calls_keep_latch env calls _ hw).2⟩

/-- Evaluation on the example bench: id 3 is listed by both configurations and the
later one wins (configuration 1, revision 1); id 5 stands after the terminating 0
and is not found, which raises the unknown-board error once. -/
theorem receiveBoardStatus_examples :
    ((receiveBoardStatus exampleEnv [0, 3] CanState.initial).currentBoard = some 1 ∧
      (receiveBoardStatus exampleEnv [0, 3] CanState.initial).currentBoardRev = 1 ∧
      specMatches exampleEnv.boards 3 = [(0, 0), (1, 1)]) ∧
    ((receiveBoardStatus exampleEnv [0, 5] CanState.initial).currentBoard = none ∧
      (receiveBoardStatus exampleEnv [0, 5] CanState.initial).chp = [ChpLine.unknownBoard] ∧
      (receiveBoardStatus exampleEnv [0, 5]
        (receiveBoardStatus exampleEnv [0, 5] CanState.initial)).chp = [ChpLine.unknownBoard]) := by
  decide

end DigitalInputs
